import Mathlib

/-!
Verification of the FinDocAnalyzer extraction and ratio core.

Shallow embedding of the repository's financial-document engine:

* string primitives of the JavaScript runtime used by the parser
  (trim, toLowerCase restricted to the ASCII and Cyrillic alphabets
  appearing in the repository, the whitespace class of the regex engine);
* the numeric token parser (parseNumericValue in
  src/server/document-parser.ts);
* the key normalizer (normalizeKey);
* the three field-extraction strategies of parseFinancialDataFromText,
  including an operational backtracking model of the two single-line
  regular expressions;
* the canonical field resolver (findValue) with its synonym tables;
* the statement validator and the ratio engine
  (validateAndNormalizeFinancialData, calculateFinancialRatios,
  evaluateRatios, getRatioStatus in src/server/financial-calculator.ts
  and its extended variant with profitability ratios).

Numbers are modelled as rationals: every arithmetic operation the code
performs on the modelled paths (sums, differences, guarded division,
decimal literals) is exact in the rationals.
-/

namespace FinDoc

/-! ## JavaScript string primitives -/

/-- The whitespace class of the JavaScript regular-expression escape
backslash-s, which is also the set trimmed by String.prototype.trim:
tab, line feed, vertical tab, form feed, carriage return, space,
no-break space, ogham space mark, the en-quad..hair-space block,
line separator, paragraph separator, narrow no-break space,
medium mathematical space, ideographic space, byte-order mark. -/
def isJsWs (c : Char) : Bool :=
  c.toNat = 9 || c.toNat = 10 || c.toNat = 11 || c.toNat = 12 || c.toNat = 13 ||
  c.toNat = 32 || c.toNat = 160 || c.toNat = 0x1680 ||
  (0x2000 ≤ c.toNat && c.toNat ≤ 0x200A) ||
  c.toNat = 0x2028 || c.toNat = 0x2029 || c.toNat = 0x202F ||
  c.toNat = 0x205F || c.toNat = 0x3000 || c.toNat = 0xFEFF

/-- String.prototype.toLowerCase, restricted to the alphabets that occur
in this repository: ASCII A-Z and Cyrillic А-Я and Ё.  Every other
character is left unchanged. -/
def jsToLower (c : Char) : Char :=
  if 65 ≤ c.toNat ∧ c.toNat ≤ 90 then Char.ofNat (c.toNat + 32)
  else if 1040 ≤ c.toNat ∧ c.toNat ≤ 1071 then Char.ofNat (c.toNat + 32)
  else if c.toNat = 1025 then Char.ofNat 1105
  else c

/-- The Unicode letter property of the regex class, restricted to the
alphabets occurring in the repository: ASCII letters and Cyrillic
letters (А-Я, а-я, Ё, ё). -/
def isLetterM (c : Char) : Bool :=
  (97 ≤ c.toNat && c.toNat ≤ 122) || (65 ≤ c.toNat && c.toNat ≤ 90) ||
  (1040 ≤ c.toNat && c.toNat ≤ 1103) || c.toNat = 1025 || c.toNat = 1105

/-- The decimal digits 0-9 (the numeric regex property as it applies to
the repository's inputs). -/
def isDigitM (c : Char) : Bool :=
  48 ≤ c.toNat && c.toNat ≤ 57

/-- Characters kept by normalizeKey's first replace: letters, digits and
whitespace survive, everything else is removed. -/
def isKeep (c : Char) : Bool :=
  isLetterM c || isDigitM c || isJsWs c

/-- One step of the replace of whitespace runs: each whitespace character
is rewritten to a plain space. -/
def wsToSpace (c : Char) : Char :=
  if isJsWs c then ' ' else c

/-- Collapse runs of spaces to a single space (together with wsToSpace
this models the replace of a whitespace run by one space). -/
def squeezeSp : List Char → List Char
  | [] => []
  | [c] => [c]
  | a :: b :: rest =>
    if a = ' ' ∧ b = ' ' then squeezeSp (b :: rest)
    else a :: squeezeSp (b :: rest)

/-- String.prototype.trim on a character list: drop leading and trailing
JavaScript whitespace. -/
def trimWs (l : List Char) : List Char :=
  ((l.dropWhile isJsWs).reverse.dropWhile isJsWs).reverse

/-- String.prototype.trim. -/
def jsTrim (s : String) : String :=
  String.mk (trimWs s.data)

/-- The character-level pipeline of normalizeKey: lowercase, remove
every character that is not a letter, digit or whitespace, collapse
whitespace runs to one space, trim. -/
def normChars (l : List Char) : List Char :=
  trimWs (squeezeSp (((l.map jsToLower).filter isKeep).map wsToSpace))

/-- normalizeKey from src/server/document-parser.ts. -/
def normalizeKey (s : String) : String :=
  String.mk (normChars s.data)

/-! ## The numeric token parser -/

/-- Value of a list of decimal digit characters, most significant first. -/
def digitsToNat (l : List Char) : Nat :=
  l.foldl (fun a c => a * 10 + (c.toNat - 48)) 0

/-- JavaScript parseFloat on the cleaned token (which contains only
digits and dots): the longest prefix of the form digits, digits dot
digits, or dot digits is read; an empty or dot-only token is NaN,
modelled as none. -/
def jsParseFloat (l : List Char) : Option ℚ :=
  let intPart := l.takeWhile Char.isDigit
  let rest := l.dropWhile Char.isDigit
  if intPart.isEmpty then
    match rest with
    | '.' :: rest2 =>
      let frac := rest2.takeWhile Char.isDigit
      if frac.isEmpty then none
      else some ((digitsToNat frac : ℚ) / ((10 : ℚ) ^ frac.length))
    | _ => none
  else
    match rest with
    | '.' :: rest2 =>
      let frac := rest2.takeWhile Char.isDigit
      some ((digitsToNat intPart : ℚ) + (digitsToNat frac : ℚ) / ((10 : ℚ) ^ frac.length))
    | _ => some ((digitsToNat intPart : ℚ))

/-- parseNumericValue from src/server/document-parser.ts: trim, detect a
parenthesized negative, strip thousands separators (whitespace and
commas), detect a leading minus, drop every remaining character that is
not a digit or a dot, parse as a float, and apply the accumulated sign. -/
def parseNumericValue (str : String) : Option ℚ :=
  if str = "" then none
  else
    let cleaned := trimWs str.data
    let isNegative := cleaned.head? == some '(' && cleaned.getLast? == some ')'
    let cleaned := if isNegative then trimWs (cleaned.drop 1).dropLast else cleaned
    let cleaned := cleaned.filter (fun c => !(isJsWs c || c == ','))
    let hasNegativeSign := cleaned.head? == some '-'
    let cleaned := if hasNegativeSign then cleaned.drop 1 else cleaned
    let cleaned := cleaned.filter (fun c => c.isDigit || c == '.')
    match jsParseFloat cleaned with
    | none => none
    | some v => some (if isNegative || hasNegativeSign then -v else v)

/-! ## The raw key-to-value map

A JavaScript Map preserves insertion order; setting an existing key
updates it in place.  Modelled as an association list. -/

/-- The raw "field label, number" map built by the extraction strategies. -/
abbrev DataMap := List (String × ℚ)

/-- Map.has. -/
def mapHas (m : DataMap) (k : String) : Bool :=
  m.any (fun p => p.1 == k)

/-- Map.get, none when absent. -/
def mapGet (m : DataMap) (k : String) : Option ℚ :=
  (m.find? (fun p => p.1 == k)).map Prod.snd

/-- Map.set: update in place when the key exists (keeping its position),
otherwise append at the end. -/
def mapSet (m : DataMap) (k : String) (v : ℚ) : DataMap :=
  if mapHas m k then m.map (fun p => if p.1 == k then (k, v) else p)
  else m ++ [(k, v)]

/-! ## Operational model of the two single-line regular expressions

The regex engine is modelled by backtracking combinators in
continuation style, in the exact order a JavaScript engine explores the
anchored patterns: a lazy one-or-more tries the shortest repetition
first, a greedy one tries the longest first, and a greedy optional
group first tries to match its contents. -/

/-- Class of the dot metacharacter: any character except a line
terminator. -/
def isDotChar (c : Char) : Bool :=
  !(c == '\n' || c == '\r' || c.toNat == 0x2028 || c.toNat == 0x2029)

/-- Class of the bracket expression digits-whitespace-comma-dot-parens-
minus-plus used for the numeric groups of both single-line patterns. -/
def isNumGroupChar (c : Char) : Bool :=
  c.isDigit || isJsWs c || c == ',' || c == '.' || c == '(' || c == ')' ||
  c == '-' || c == '+'

/-- Lazy one-or-more loop: the prefix taken so far is tried with the
continuation before being extended by one more class character. -/
def lazyPlusGo (cls : Char → Bool) (taken : List Char) :
    List Char → (List Char → List Char → Option α) → Option α
  | rest, k =>
    match k taken rest with
    | some r => some r
    | none =>
      match rest with
      | c :: rest2 =>
        if cls c then lazyPlusGo cls (taken ++ [c]) rest2 k else none
      | [] => none

/-- Lazy one-or-more over a character class. -/
def lazyPlus (cls : Char → Bool) (l : List Char)
    (k : List Char → List Char → Option α) : Option α :=
  match l with
  | [] => none
  | c :: rest => if cls c then lazyPlusGo cls [c] rest k else none

/-- Greedy at-least-n loop: the reversed prefix taken so far is tried
with the continuation (when long enough) and then shortened by one. -/
def greedyMinGo (n : Nat) (cls : Char → Bool) :
    List Char → List Char → (List Char → List Char → Option α) → Option α
  | takenRev, rest, k =>
    match takenRev with
    | [] => none
    | c :: tr =>
      match (if n ≤ tr.length + 1 then k (c :: tr).reverse rest else none) with
      | some r => some r
      | none => greedyMinGo n cls tr (c :: rest) k

/-- Greedy at-least-n repetition over a character class: the maximal run
is consumed first and given back one character at a time. -/
def greedyMin (n : Nat) (cls : Char → Bool) (l : List Char)
    (k : List Char → List Char → Option α) : Option α :=
  greedyMinGo n cls (l.takeWhile cls).reverse (l.dropWhile cls) k

/-- Exactly four decimal digits (the code group of pattern one). -/
def matchDigits4 (l : List Char)
    (k : List Char → List Char → Option α) : Option α :=
  match l with
  | a :: b :: c :: d :: rest =>
    if a.isDigit && b.isDigit && c.isDigit && d.isDigit then
      k [a, b, c, d] rest
    else none
  | _ => none

/-- A greedy optional group holding whitespace followed by a lazy
numeric group, as in pattern one's two trailing value columns: matching
the group is attempted before skipping it. -/
def optNumGroup (l : List Char)
    (k : Option (List Char) → List Char → Option α) : Option α :=
  match greedyMin 1 isJsWs l (fun _ rest =>
      lazyPlus isNumGroupChar rest (fun g rest2 => k (some g) rest2)) with
  | some r => some r
  | none => k none l

/-- First single-line pattern: anchored label (lazy dot repetition),
whitespace, a four-digit code, whitespace, a lazy numeric group, then up
to two more optional whitespace-plus-numeric-group columns, end anchor.
Returns the label, the code and the first numeric group. -/
def matchPattern1 (l : List Char) : Option (List Char × List Char × List Char) :=
  lazyPlus isDotChar l (fun g1 rest =>
    greedyMin 1 isJsWs rest (fun _ rest1 =>
      matchDigits4 rest1 (fun g2 rest2 =>
        greedyMin 1 isJsWs rest2 (fun _ rest3 =>
          lazyPlus isNumGroupChar rest3 (fun g3 rest4 =>
            optNumGroup rest4 (fun _ rest5 =>
              optNumGroup rest5 (fun _ rest6 =>
                if rest6.isEmpty then some (g1, g2, g3) else none)))))))

/-- Second single-line pattern: anchored label (lazy dot repetition),
whitespace, a greedy numeric group of at least three characters, end
anchor.  Returns the label and the numeric group. -/
def matchPattern2 (l : List Char) : Option (List Char × List Char) :=
  lazyPlus isDotChar l (fun g1 rest =>
    greedyMin 1 isJsWs rest (fun _ rest1 =>
      greedyMin 3 isNumGroupChar rest1 (fun g2 rest2 =>
        if rest2.isEmpty then some (g1, g2) else none)))

/-- Try the two single-line patterns in order on one line, as the inner
loop of strategy two does; the value string is group three when the
first pattern matched (falling back to group two if it were empty, as
the JavaScript or-expression does) and group two for the second
pattern. -/
def tryPatterns (line : String) : Option (String × String) :=
  match matchPattern1 line.data with
  | some (g1, g2, g3) =>
    some (String.mk g1, if g3.isEmpty then String.mk g2 else String.mk g3)
  | none =>
    match matchPattern2 line.data with
    | some (g1, g2) => some (String.mk g1, String.mk g2)
    | none => none

/-! ## The three field-extraction strategies -/

/-- The four-digit-code test (the anchored code pattern). -/
def isCode (s : String) : Bool :=
  s.length == 4 && s.data.all Char.isDigit

/-- String.prototype.split on a single-character separator: the
segments between occurrences of the separator, empty segments
included.  The accumulator holds the current segment reversed. -/
def splitOnCharAux (sep : Char) (cur : List Char) :
    List Char → List (List Char)
  | [] => [cur.reverse]
  | c :: rest =>
    if c = sep then cur.reverse :: splitOnCharAux sep [] rest
    else splitOnCharAux sep (c :: cur) rest

/-- String.prototype.split on a single-character separator. -/
def splitOnChar (sep : Char) (s : String) : List String :=
  (splitOnCharAux sep [] s.data).map String.mk

/-- Split a document into trimmed non-empty lines, preserving order. -/
def toNonEmptyLines (text : String) : List String :=
  ((splitOnChar '\n' text).map jsTrim).filter (fun l => l ≠ "")

/-- Strategy one of parseFinancialDataFromText: for each line that is
not itself a code, when the next line is a four-digit code and the line
after parses as a number, record the value under the normalized current
line.  Returns the map and the list of raw found keys. -/
def strategy1 (lines : List String) : DataMap × List String :=
  (List.range lines.length).foldl (fun acc i =>
    let currentLine := lines.getD i ""
    if isCode currentLine then acc
    else if i + 2 < lines.length && isCode (lines.getD (i + 1) "") then
      match parseNumericValue (lines.getD (i + 2) "") with
      | some v =>
        let nk := normalizeKey currentLine
        if nk ≠ "" then (mapSet acc.1 nk v, acc.2 ++ [currentLine]) else acc
      | none => acc
    else acc) ([], [])

/-- Strategy two of parseFinancialDataFromText: per line, the first
single-line pattern that matches is processed (and only that one); a
successfully parsed value is recorded under the normalized trimmed
label. -/
def strategy2 (lines : List String) (acc : DataMap × List String) :
    DataMap × List String :=
  lines.foldl (fun acc line =>
    match tryPatterns line with
    | some (rawName, valueStr) =>
      let itemName := jsTrim rawName
      match parseNumericValue valueStr with
      | some v =>
        let nk := normalizeKey itemName
        if nk ≠ "" then (mapSet acc.1 nk v, acc.2 ++ [itemName]) else acc
      | none => acc
    | none => acc) acc

/-- The single-line fallback is entered only when strategy one found no
fields. -/
def strategy2IfNeeded (lines : List String) (s1 : DataMap × List String) :
    DataMap × List String :=
  if s1.2.length = 0 then strategy2 lines s1 else s1

/-- The fixed statutory balance-sheet code table of strategy three. -/
def codeToFieldMap : List (String × String) :=
  [("1250", "денежные средства и денежные эквиваленты"),
   ("1240", "финансовые вложения исключая денежные эквиваленты"),
   ("1230", "финансовые вложения"),
   ("1220", "налог на добавленную стоимость"),
   ("1210", "запасы"),
   ("1260", "прочие оборотные активы"),
   ("1200", "итого по разделу ii"),
   ("1100", "итого по разделу i"),
   ("1110", "нематериальные активы"),
   ("1120", "результаты исследований и разработок"),
   ("1130", "нематериальные поисковые активы"),
   ("1140", "материальные поисковые активы"),
   ("1150", "основные средства"),
   ("1160", "доходные вложения в материальные ценности"),
   ("1170", "финансовые вложения"),
   ("1180", "отложенные налоговые активы"),
   ("1190", "прочие внеоборотные активы"),
   ("1300", "итого по разделу iii"),
   ("1310", "уставный капитал"),
   ("1360", "резервный капитал"),
   ("1370", "нераспределенная прибыль"),
   ("1400", "итого по разделу iv"),
   ("1410", "заемные средства"),
   ("1420", "отложенные налоговые обязательства"),
   ("1500", "итого по разделу v"),
   ("1510", "заемные средства"),
   ("1520", "кредиторская задолженность"),
   ("1600", "баланс"),
   ("1700", "баланс")]

/-- Strategy three of parseFinancialDataFromText: every line that is a
bare four-digit code present in the statutory table, whose next line
parses as a number, records the value under the normalized canonical
field name, but only if that key is not already present (first writer
wins). -/
def strategy3 (lines : List String) (acc : DataMap × List String) :
    DataMap × List String :=
  (List.range lines.length).foldl (fun acc i =>
    let line := lines.getD i ""
    if isCode line then
      match (codeToFieldMap.find? (fun p => p.1 == line)).map Prod.snd with
      | some fieldName =>
        if i + 1 < lines.length then
          match parseNumericValue (lines.getD (i + 1) "") with
          | some v =>
            let nk := normalizeKey fieldName
            if nk ≠ "" ∧ ¬ mapHas acc.1 nk then
              (mapSet acc.1 nk v, acc.2 ++ [fieldName ++ " (код " ++ line ++ ")"])
            else acc
          | none => acc
        else acc
      | none => acc
    else acc) acc

/-- The full raw map construction of parseFinancialDataFromText:
strategy one, then — only if it found nothing — strategy two, then the
unconditional statutory-code fallback. -/
def buildDataMap (lines : List String) : DataMap × List String :=
  strategy3 lines (strategy2IfNeeded lines (strategy1 lines))

/-! ## The canonical field resolver (findValue) -/

/-- String.prototype.includes: the needle occurs as a contiguous
substring. -/
def strIncludes (s sub : String) : Bool :=
  s.data.tails.any (fun t => sub.data.isPrefixOf t)

/-- The exact-match pass of findValue: the first synonym whose
normalized form is a key of the map wins. -/
def exactFind (m : DataMap) (possibleKeys : List String) : Option ℚ :=
  possibleKeys.findSome? (fun key => mapGet m (normalizeKey key))

/-- The partial-match pass of findValue: for each synonym in order, its
normalized words of length above two are matched against the map
entries in insertion order; the first entry containing every word (the
word list being non-empty) wins. -/
def partialFind (m : DataMap) (possibleKeys : List String) : Option ℚ :=
  possibleKeys.findSome? (fun key =>
    let words := (splitOnChar ' ' (normalizeKey key)).filter (fun w => 2 < w.length)
    m.findSome? (fun p =>
      if words.all (fun w => strIncludes p.1 w) && !words.isEmpty then some p.2
      else none))

/-- The error message thrown for a missing required field: it names the
first synonym, suggests the first three synonyms, and shows the first
fifteen raw labels found (with an ellipsis if there were more). -/
def requiredFieldError (possibleKeys : List String) (foundKeys : List String) :
    String :=
  "Не найдено обязательное поле: \"" ++ possibleKeys.headD "" ++ "\". \n" ++
  "Попробуйте использовать одно из этих названий: " ++
  String.intercalate ", " (possibleKeys.take 3) ++ ".\n" ++
  "Найденные поля в файле: " ++ String.intercalate ", " (foundKeys.take 15) ++
  (if 15 < foundKeys.length then "..." else "")

/-- Decidable equality of Except results, so that concrete runs of the
fallible resolver can be checked by evaluation. -/
instance {ε α : Type} [DecidableEq ε] [DecidableEq α] :
    DecidableEq (Except ε α) := fun a b =>
  match a, b with
  | .ok x, .ok y => decidable_of_iff (x = y) (by simp)
  | .error x, .error y => decidable_of_iff (x = y) (by simp)
  | .ok _, .error _ => isFalse (by simp)
  | .error _, .ok _ => isFalse (by simp)

/-- findValue from src/server/document-parser.ts: exact synonym match
first, then partial word-subset match, then 0 for an optional field or
a descriptive error for a required one. -/
def findValue (m : DataMap) (foundKeys : List String)
    (possibleKeys : List String) (optional : Bool) : Except String ℚ :=
  match exactFind m possibleKeys with
  | some v => .ok v
  | none =>
    match partialFind m possibleKeys with
    | some v => .ok v
    | none =>
      if optional then .ok 0
      else .error (requiredFieldError possibleKeys foundKeys)

/-! ## Synonym tables (the possibleKeys lists of parseFinancialDataFromText) -/

def currentAssetsKeys : List String :=
  ["итого по разделу ii", "ii оборотные активы", "оборотные активы",
   "оборотные активы всего", "current assets", "текущие активы"]

def cashAndEquivalentsKeys : List String :=
  ["денежные средства и денежные эквиваленты", "денежные средства",
   "cash and equivalents", "cash", "деньги"]

def shortTermInvestmentsKeys : List String :=
  ["финансовые вложения исключая денежные эквиваленты",
   "краткосрочные финансовые вложения", "финансовые вложения",
   "краткосрочные инвестиции", "short term investments", "кфв"]

def accountsReceivableKeys : List String :=
  ["дебиторская задолженность", "accounts receivable", "дебиторы", "дебиторка"]

def inventoryKeys : List String :=
  ["запасы", "inventory", "товарноматериальные запасы", "тмз"]

def totalAssetsKeys : List String :=
  ["баланс", "активы баланс", "всего активов", "активы всего",
   "total assets", "активы", "итого активов"]

def currentLiabilitiesKeys : List String :=
  ["итого по разделу v", "v краткосрочные обязательства",
   "краткосрочные обязательства", "current liabilities", "текущие обязательства"]

def shortTermDebtKeys : List String :=
  ["заемные средства", "краткосрочные заемные средства",
   "краткосрочный долг", "short term debt", "займы и кредиты"]

def totalLiabilitiesKeys : List String :=
  ["всего обязательств", "обязательства всего", "total liabilities",
   "обязательства", "пассивы", "итого обязательств"]

def equityKeys : List String :=
  ["итого по разделу iii", "iii капитал и резервы", "капитал и резервы",
   "собственный капитал", "equity", "капитал", "собственные средства"]

def longTermDebtKeys : List String :=
  ["итого по разделу iv", "iv долгосрочные обязательства",
   "долгосрочные обязательства", "долгосрочные заемные средства",
   "долгосрочный долг", "long term debt"]

def revenueKeys : List String :=
  ["выручка", "revenue", "доход", "выручка от продаж"]

def netIncomeKeys : List String :=
  ["чистая прибыль убыток", "чистая прибыль", "net income", "прибыль", "чп"]

def operatingIncomeKeys : List String :=
  ["прибыль убыток от продаж", "операционная прибыль", "operating income",
   "прибыль от продаж"]

def grossProfitKeys : List String :=
  ["валовая прибыль убыток", "валовая прибыль", "gross profit"]

def intangibleAssetsKeys : List String :=
  ["нематериальные активы", "intangible assets", "нма"]

def rdResultsKeys : List String :=
  ["результаты исследований и разработок", "research and development results",
   "ниокр"]

def intangibleExplorationAssetsKeys : List String :=
  ["нематериальные поисковые активы", "intangible exploration assets"]

def tangibleExplorationAssetsKeys : List String :=
  ["материальные поисковые активы", "tangible exploration assets"]

def fixedAssetsKeys : List String :=
  ["основные средства", "fixed assets", "ос"]

def profitableInvestmentsInTangibleAssetsKeys : List String :=
  ["доходные вложения в материальные ценности",
   "profitable investments in tangible assets"]

def financialInvestmentsKeys : List String :=
  ["финансовые вложения", "financial investments",
   "долгосрочные финансовые вложения"]

def deferredTaxAssetsKeys : List String :=
  ["отложенные налоговые активы", "deferred tax assets", "она"]

def otherNonCurrentAssetsKeys : List String :=
  ["прочие внеоборотные активы", "other non current assets"]

def otherCurrentAssetsKeys : List String :=
  ["прочие оборотные активы", "other current assets"]

def authorizedCapitalKeys : List String :=
  ["уставный капитал складочный капитал уставный фонд вклады товарищей",
   "уставный капитал", "authorized capital"]

def retainedEarningsKeys : List String :=
  ["нераспределенная прибыль непокрытый убыток", "нераспределенная прибыль",
   "retained earnings"]

def revaluationReserveKeys : List String :=
  ["переоценка внеоборотных активов", "revaluation reserve"]

def additionalCapitalKeys : List String :=
  ["добавочный капитал без переоценки", "добавочный капитал",
   "additional capital"]

def borrowedFundsLongTermKeys : List String :=
  ["заемные средства долгосрочные", "long term borrowed funds"]

def deferredTaxLiabilitiesKeys : List String :=
  ["отложенные налоговые обязательства", "deferred tax liabilities", "оно"]

def estimatedLiabilitiesKeys : List String :=
  ["оценочные обязательства", "estimated liabilities"]

def otherLongTermLiabilitiesKeys : List String :=
  ["прочие долгосрочные обязательства", "прочие обязательства",
   "other long term liabilities"]

def accountsPayableKeys : List String :=
  ["кредиторская задолженность", "accounts payable", "кредиторы"]

def deferredIncomeKeys : List String :=
  ["доходы будущих периодов", "deferred income"]

def estimatedLiabilitiesShortTermKeys : List String :=
  ["оценочные обязательства краткосрочные", "short term estimated liabilities"]

def otherCurrentLiabilitiesKeys : List String :=
  ["прочие краткосрочные обязательства", "other current liabilities"]

/-! ## The financial-data record (shared/schema.ts) -/

/-- FinancialData from shared/schema.ts: required balance-sheet fields
are numbers, income-statement and detail fields are optional. -/
structure FinancialData where
  okved : Option String := none
  companyName : Option String := none
  currentAssets : ℚ
  cashAndEquivalents : ℚ
  shortTermInvestments : ℚ
  accountsReceivable : ℚ
  inventory : ℚ
  totalAssets : ℚ
  currentLiabilities : ℚ
  shortTermDebt : ℚ
  totalLiabilities : ℚ
  equity : ℚ
  longTermDebt : ℚ
  revenue : Option ℚ := none
  netIncome : Option ℚ := none
  operatingIncome : Option ℚ := none
  grossProfit : Option ℚ := none
  profitBeforeTax : Option ℚ := none
  intangibleAssets : Option ℚ := none
  rdResults : Option ℚ := none
  intangibleExplorationAssets : Option ℚ := none
  tangibleExplorationAssets : Option ℚ := none
  fixedAssets : Option ℚ := none
  profitableInvestmentsInTangibleAssets : Option ℚ := none
  financialInvestments : Option ℚ := none
  deferredTaxAssets : Option ℚ := none
  otherNonCurrentAssets : Option ℚ := none
  otherCurrentAssets : Option ℚ := none
  authorizedCapital : Option ℚ := none
  retainedEarnings : Option ℚ := none
  revaluationReserve : Option ℚ := none
  additionalCapital : Option ℚ := none
  borrowedFundsLongTerm : Option ℚ := none
  deferredTaxLiabilities : Option ℚ := none
  estimatedLiabilities : Option ℚ := none
  otherLongTermLiabilities : Option ℚ := none
  accountsPayable : Option ℚ := none
  deferredIncome : Option ℚ := none
  estimatedLiabilitiesShortTerm : Option ℚ := none
  otherCurrentLiabilities : Option ℚ := none
deriving DecidableEq, Repr

/-- The zod schema check financialDataSchema.parse: positivity of
currentAssets, totalAssets and equity, non-negativity of the other
required fields; the record passes through unchanged. -/
def validateFinancialData (d : FinancialData) : Except String FinancialData :=
  if 0 < d.currentAssets ∧ 0 ≤ d.cashAndEquivalents ∧
     0 ≤ d.shortTermInvestments ∧ 0 ≤ d.accountsReceivable ∧
     0 ≤ d.inventory ∧ 0 < d.totalAssets ∧ 0 ≤ d.currentLiabilities ∧
     0 ≤ d.shortTermDebt ∧ 0 ≤ d.totalLiabilities ∧ 0 < d.equity ∧
     0 ≤ d.longTermDebt then
    .ok d
  else .error "schema validation failed"

/-- Assembly of the FinancialData record by parseFinancialDataFromText
from the raw map: each field is resolved by findValue in the order of
the object literal, required fields first raising on failure, optional
fields defaulting to 0; the result is then checked against the zod
schema.  The header metadata (okved, company name) is extracted by a
separate scan not modelled here and enters as parameters. -/
def resolveFinancialData (m : DataMap) (foundKeys : List String)
    (okved companyName : Option String) : Except String FinancialData := do
  let currentAssets ← findValue m foundKeys currentAssetsKeys false
  let cashAndEquivalents ← findValue m foundKeys cashAndEquivalentsKeys false
  let shortTermInvestments ← findValue m foundKeys shortTermInvestmentsKeys false
  let accountsReceivable ← findValue m foundKeys accountsReceivableKeys false
  let inventory ← findValue m foundKeys inventoryKeys false
  let totalAssets ← findValue m foundKeys totalAssetsKeys false
  let currentLiabilities ← findValue m foundKeys currentLiabilitiesKeys false
  let shortTermDebt ← findValue m foundKeys shortTermDebtKeys false
  let totalLiabilities ← findValue m foundKeys totalLiabilitiesKeys false
  let equity ← findValue m foundKeys equityKeys false
  let longTermDebt ← findValue m foundKeys longTermDebtKeys false
  let revenue ← findValue m foundKeys revenueKeys true
  let netIncome ← findValue m foundKeys netIncomeKeys true
  let operatingIncome ← findValue m foundKeys operatingIncomeKeys true
  let grossProfit ← findValue m foundKeys grossProfitKeys true
  let intangibleAssets ← findValue m foundKeys intangibleAssetsKeys true
  let rdResults ← findValue m foundKeys rdResultsKeys true
  let intangibleExplorationAssets ← findValue m foundKeys intangibleExplorationAssetsKeys true
  let tangibleExplorationAssets ← findValue m foundKeys tangibleExplorationAssetsKeys true
  let fixedAssets ← findValue m foundKeys fixedAssetsKeys true
  let profitableInvestmentsInTangibleAssets ← findValue m foundKeys profitableInvestmentsInTangibleAssetsKeys true
  let financialInvestments ← findValue m foundKeys financialInvestmentsKeys true
  let deferredTaxAssets ← findValue m foundKeys deferredTaxAssetsKeys true
  let otherNonCurrentAssets ← findValue m foundKeys otherNonCurrentAssetsKeys true
  let otherCurrentAssets ← findValue m foundKeys otherCurrentAssetsKeys true
  let authorizedCapital ← findValue m foundKeys authorizedCapitalKeys true
  let retainedEarnings ← findValue m foundKeys retainedEarningsKeys true
  let revaluationReserve ← findValue m foundKeys revaluationReserveKeys true
  let additionalCapital ← findValue m foundKeys additionalCapitalKeys true
  let borrowedFundsLongTerm ← findValue m foundKeys borrowedFundsLongTermKeys true
  let deferredTaxLiabilities ← findValue m foundKeys deferredTaxLiabilitiesKeys true
  let estimatedLiabilities ← findValue m foundKeys estimatedLiabilitiesKeys true
  let otherLongTermLiabilities ← findValue m foundKeys otherLongTermLiabilitiesKeys true
  let accountsPayable ← findValue m foundKeys accountsPayableKeys true
  let deferredIncome ← findValue m foundKeys deferredIncomeKeys true
  let estimatedLiabilitiesShortTerm ← findValue m foundKeys estimatedLiabilitiesShortTermKeys true
  let otherCurrentLiabilities ← findValue m foundKeys otherCurrentLiabilitiesKeys true
  validateFinancialData
    { okved := okved
      companyName := companyName
      currentAssets := currentAssets
      cashAndEquivalents := cashAndEquivalents
      shortTermInvestments := shortTermInvestments
      accountsReceivable := accountsReceivable
      inventory := inventory
      totalAssets := totalAssets
      currentLiabilities := currentLiabilities
      shortTermDebt := shortTermDebt
      totalLiabilities := totalLiabilities
      equity := equity
      longTermDebt := longTermDebt
      revenue := some revenue
      netIncome := some netIncome
      operatingIncome := some operatingIncome
      grossProfit := some grossProfit
      profitBeforeTax := none
      intangibleAssets := some intangibleAssets
      rdResults := some rdResults
      intangibleExplorationAssets := some intangibleExplorationAssets
      tangibleExplorationAssets := some tangibleExplorationAssets
      fixedAssets := some fixedAssets
      profitableInvestmentsInTangibleAssets := some profitableInvestmentsInTangibleAssets
      financialInvestments := some financialInvestments
      deferredTaxAssets := some deferredTaxAssets
      otherNonCurrentAssets := some otherNonCurrentAssets
      otherCurrentAssets := some otherCurrentAssets
      authorizedCapital := some authorizedCapital
      retainedEarnings := some retainedEarnings
      revaluationReserve := some revaluationReserve
      additionalCapital := some additionalCapital
      borrowedFundsLongTerm := some borrowedFundsLongTerm
      deferredTaxLiabilities := some deferredTaxLiabilities
      estimatedLiabilities := some estimatedLiabilities
      otherLongTermLiabilities := some otherLongTermLiabilities
      accountsPayable := some accountsPayable
      deferredIncome := some deferredIncome
      estimatedLiabilitiesShortTerm := some estimatedLiabilitiesShortTerm
      otherCurrentLiabilities := some otherCurrentLiabilities }

/-! ## Statement validator and ratio engine

From src/server/financial-calculator.ts and its extended variant with
profitability ratios; the two files contain the identical validator and
liquidity computations, the extended variant adds the six profitability
ratios and the formula strings. -/

/-- validateAndNormalizeFinancialData: totalLiabilities is recomputed
as longTermDebt plus currentLiabilities; the accounting-identity check
against a one-percent tolerance only logs (both branches return the
same record), so the function never fails. -/
def validateAndNormalizeFinancialData (data : FinancialData) : FinancialData :=
  let calculatedTotalLiabilities := data.longTermDebt + data.currentLiabilities
  let calculatedPassive := data.equity + calculatedTotalLiabilities
  let difference := |data.totalAssets - calculatedPassive|
  let tolerance := data.totalAssets * (1 / 100)
  if tolerance < difference then
    { data with totalLiabilities := calculatedTotalLiabilities }
  else
    { data with totalLiabilities := calculatedTotalLiabilities }

/-- FinancialRatios from shared/schema.ts. -/
structure FinancialRatios where
  currentRatio : ℚ
  quickRatio : ℚ
  cashRatio : ℚ
  debtToEquityRatio : ℚ
  equityRatio : ℚ
  debtRatio : ℚ
  financialLeverageRatio : ℚ
  workingCapital : ℚ
  equityManeuverability : Option ℚ
  roa : Option ℚ
  roe : Option ℚ
  ros : Option ℚ
  grossProfitMargin : Option ℚ
  operatingProfitMargin : Option ℚ
  netProfitMargin : Option ℚ
deriving DecidableEq, Repr

/-- calculateFinancialRatios: liquidity and stability ratios with
zero-denominator guards returning 0, and profitability ratios present
only when their optional operands are defined and the denominator is
strictly positive. -/
def calculateFinancialRatios (data : FinancialData) : FinancialRatios :=
  { currentRatio :=
      if 0 < data.currentLiabilities then data.currentAssets / data.currentLiabilities
      else 0
    quickRatio :=
      if 0 < data.currentLiabilities then
        (data.currentAssets - data.inventory) / data.currentLiabilities
      else 0
    cashRatio :=
      if 0 < data.currentLiabilities then
        (data.cashAndEquivalents + data.shortTermInvestments) / data.currentLiabilities
      else 0
    equityRatio :=
      if 0 < data.totalAssets then data.equity / data.totalAssets else 0
    debtRatio :=
      if 0 < data.totalAssets then data.totalLiabilities / data.totalAssets else 0
    debtToEquityRatio :=
      if 0 < data.equity then data.totalLiabilities / data.equity else 0
    financialLeverageRatio :=
      if 0 < data.equity then data.totalAssets / data.equity else 0
    workingCapital := data.currentAssets - data.currentLiabilities
    equityManeuverability :=
      if 0 < data.equity then
        some ((data.equity - (data.totalAssets - data.currentAssets)) / data.equity)
      else none
    roa :=
      match data.netIncome with
      | some ni => if 0 < data.totalAssets then some (ni / data.totalAssets) else none
      | none => none
    roe :=
      match data.netIncome with
      | some ni => if 0 < data.equity then some (ni / data.equity) else none
      | none => none
    ros :=
      match data.netIncome, data.revenue with
      | some ni, some rev => if 0 < rev then some (ni / rev) else none
      | _, _ => none
    grossProfitMargin :=
      match data.grossProfit, data.revenue with
      | some gp, some rev => if 0 < rev then some (gp / rev) else none
      | _, _ => none
    operatingProfitMargin :=
      match data.operatingIncome, data.revenue with
      | some oi, some rev => if 0 < rev then some (oi / rev) else none
      | _, _ => none
    netProfitMargin :=
      match data.netIncome, data.revenue with
      | some ni, some rev => if 0 < rev then some (ni / rev) else none
      | _, _ => none }

/-- The four-level ratio health classification. -/
inductive RatioStatus where
  | excellent
  | good
  | warning
  | critical
deriving DecidableEq, Repr

/-- The three benchmark thresholds passed to getRatioStatus. -/
structure RatioThresholds where
  excellent : ℚ
  good : ℚ
  warning : ℚ
deriving DecidableEq, Repr

/-- getRatioStatus: inclusive at-least comparison against the three
descending thresholds, or inclusive at-most comparison for the reverse
(lower-is-better) ratios. -/
def getRatioStatus (value : ℚ) (t : RatioThresholds) (reverse : Bool) :
    RatioStatus :=
  if reverse then
    if value ≤ t.excellent then .excellent
    else if value ≤ t.good then .good
    else if value ≤ t.warning then .warning
    else .critical
  else
    if t.excellent ≤ value then .excellent
    else if t.good ≤ value then .good
    else if t.warning ≤ value then .warning
    else .critical

/-- RatioWithStatus from shared/schema.ts. -/
structure RatioWithStatus where
  value : ℚ
  status : RatioStatus
  benchmark : String
  description : String
  formula : String
deriving DecidableEq, Repr

/-- The record returned by evaluateRatios: the eight core assessments
and the six profitability assessments, the latter present exactly when
the corresponding ratio was computed. -/
structure EvaluatedRatios where
  currentRatio : RatioWithStatus
  quickRatio : RatioWithStatus
  cashRatio : RatioWithStatus
  debtToEquityRatio : RatioWithStatus
  equityRatio : RatioWithStatus
  debtRatio : RatioWithStatus
  financialLeverageRatio : RatioWithStatus
  workingCapital : RatioWithStatus
  roa : Option RatioWithStatus
  roe : Option RatioWithStatus
  ros : Option RatioWithStatus
  grossProfitMargin : Option RatioWithStatus
  operatingProfitMargin : Option RatioWithStatus
  netProfitMargin : Option RatioWithStatus
deriving DecidableEq, Repr

/-- evaluateRatios: each ratio is wrapped with its status against its
benchmark tiers; working capital uses the binary positive rule; a
profitability entry is spread into the result only when the ratio is
defined. -/
def evaluateRatios (ratios : FinancialRatios) : EvaluatedRatios :=
  { currentRatio :=
      { value := ratios.currentRatio
        status := getRatioStatus ratios.currentRatio ⟨5/2, 2, 3/2⟩ false
        benchmark := "≥ 2.0"
        description := "Способность компании погашать краткосрочные обязательства оборотными активами"
        formula := "Кт.л. = Оборотные активы / Краткосрочные обязательства" }
    quickRatio :=
      { value := ratios.quickRatio
        status := getRatioStatus ratios.quickRatio ⟨3/2, 1, 4/5⟩ false
        benchmark := "≥ 1.0"
        description := "Способность быстро погасить краткосрочные обязательства ликвидными активами"
        formula := "Кб.л. = (Оборотные активы - Запасы) / Краткосрочные обязательства" }
    cashRatio :=
      { value := ratios.cashRatio
        status := getRatioStatus ratios.cashRatio ⟨1/2, 1/5, 1/10⟩ false
        benchmark := "≥ 0.2"
        description := "Способность погасить обязательства только за счет денежных средств"
        formula := "Ка.л. = (Денежные средства + Краткосрочные финансовые вложения) / Краткосрочные обязательства" }
    debtToEquityRatio :=
      { value := ratios.debtToEquityRatio
        status := getRatioStatus ratios.debtToEquityRatio ⟨1/2, 1, 3/2⟩ true
        benchmark := "< 1.0"
        description := "Соотношение заемного капитала к собственному"
        formula := "Кз/с = Обязательства / Собственный капитал" }
    equityRatio :=
      { value := ratios.equityRatio
        status := getRatioStatus ratios.equityRatio ⟨3/5, 1/2, 2/5⟩ false
        benchmark := "≥ 0.5"
        description := "Доля собственного капитала в общей сумме активов"
        formula := "Кавт = Собственный капитал / Активы" }
    debtRatio :=
      { value := ratios.debtRatio
        status := getRatioStatus ratios.debtRatio ⟨3/10, 1/2, 3/5⟩ true
        benchmark := "< 0.5"
        description := "Доля заемного капитала в общей сумме активов"
        formula := "Кзад = Обязательства / Активы" }
    financialLeverageRatio :=
      { value := ratios.financialLeverageRatio
        status := getRatioStatus ratios.financialLeverageRatio ⟨3/2, 2, 5/2⟩ true
        benchmark := "1.0 - 2.0"
        description := "Показывает эффективность использования заемного капитала"
        formula := "Кф.р. = Активы / Собственный капитал" }
    workingCapital :=
      { value := ratios.workingCapital
        status := if 0 < ratios.workingCapital then .excellent else .critical
        benchmark := "> 0"
        description := "Разница между оборотными активами и краткосрочными обязательствами"
        formula := "СОК = Оборотные активы - Краткосрочные обязательства" }
    roa := ratios.roa.map (fun v =>
      { value := v
        status := getRatioStatus v ⟨3/20, 1/10, 1/20⟩ false
        benchmark := "≥ 0.10"
        description := "Рентабельность активов - эффективность использования активов для генерации прибыли"
        formula := "ROA = Чистая прибыль / Активы" })
    roe := ratios.roe.map (fun v =>
      { value := v
        status := getRatioStatus v ⟨1/5, 3/20, 1/10⟩ false
        benchmark := "≥ 0.15"
        description := "Рентабельность собственного капитала - доход на инвестиции акционеров"
        formula := "ROE = Чистая прибыль / Собственный капитал" })
    ros := ratios.ros.map (fun v =>
      { value := v
        status := getRatioStatus v ⟨3/20, 1/10, 1/20⟩ false
        benchmark := "≥ 0.10"
        description := "Рентабельность продаж (по чистой прибыли) - доля чистой прибыли в выручке"
        formula := "ROS = Чистая прибыль / Выручка" })
    grossProfitMargin := ratios.grossProfitMargin.map (fun v =>
      { value := v
        status := getRatioStatus v ⟨2/5, 3/10, 1/5⟩ false
        benchmark := "≥ 0.30"
        description := "Рентабельность по валовой прибыли - доля валовой прибыли в выручке"
        formula := "GPM = Валовая прибыль / Выручка" })
    operatingProfitMargin := ratios.operatingProfitMargin.map (fun v =>
      { value := v
        status := getRatioStatus v ⟨1/5, 3/20, 1/10⟩ false
        benchmark := "≥ 0.15"
        description := "Рентабельность по прибыли от продаж - доля операционной прибыли в выручке"
        formula := "OPM = Прибыль от продаж / Выручка" })
    netProfitMargin := ratios.netProfitMargin.map (fun v =>
      { value := v
        status := getRatioStatus v ⟨3/20, 1/10, 1/20⟩ false
        benchmark := "≥ 0.10"
        description := "Рентабельность по чистой прибыли - доля чистой прибыли в выручке"
        formula := "NPM = Чистая прибыль / Выручка" }) }

/-! ## Concrete fixtures used by the witness theorems -/

/-- A record with every required field zero, exercising all three
zero-denominator guards at once. -/
def guardFixture : FinancialData :=
  { currentAssets := 0, cashAndEquivalents := 0, shortTermInvestments := 0,
    accountsReceivable := 0, inventory := 0, totalAssets := 0,
    currentLiabilities := 0, shortTermDebt := 0, totalLiabilities := 0,
    equity := 0, longTermDebt := 0 }

/-- A record whose net income and revenue are both defined while the
revenue is zero. -/
def zeroRevenueFixture : FinancialData :=
  { currentAssets := 1, cashAndEquivalents := 0, shortTermInvestments := 0,
    accountsReceivable := 0, inventory := 0, totalAssets := 1,
    currentLiabilities := 1, shortTermDebt := 0, totalLiabilities := 0,
    equity := 1, longTermDebt := 0,
    revenue := some 0, netIncome := some 1 }

/-- The record of the liquidity scenario: current assets 150000 against
current liabilities 60000. -/
def liquidityFixture : FinancialData :=
  { currentAssets := 150000, cashAndEquivalents := 0, shortTermInvestments := 0,
    accountsReceivable := 0, inventory := 0, totalAssets := 1,
    currentLiabilities := 60000, shortTermDebt := 0, totalLiabilities := 0,
    equity := 1, longTermDebt := 0 }

/-- A raw map containing an exact synonym of each required canonical
field, as a successfully resolvable extraction result. -/
def resolvableMapFixture : DataMap :=
  [("итого по разделу ii", 10), ("денежные средства и денежные эквиваленты", 1),
   ("финансовые вложения исключая денежные эквиваленты", 1),
   ("дебиторская задолженность", 1), ("запасы", 1), ("баланс", 100),
   ("итого по разделу v", 5), ("заемные средства", 1), ("всего обязательств", 7),
   ("итого по разделу iii", 50), ("итого по разделу iv", 2)]

/-- The record the resolver produces from resolvableMapFixture: every
optional income-statement and detail field is a defined number (the
financial-investments synonym partially matches a raw key, the rest
default to zero). -/
def resolvedRecordFixture : FinancialData :=
  { currentAssets := 10, cashAndEquivalents := 1, shortTermInvestments := 1,
    accountsReceivable := 1, inventory := 1, totalAssets := 100,
    currentLiabilities := 5, shortTermDebt := 1, totalLiabilities := 7,
    equity := 50, longTermDebt := 2,
    revenue := some 0, netIncome := some 0, operatingIncome := some 0,
    grossProfit := some 0, profitBeforeTax := none,
    intangibleAssets := some 0, rdResults := some 0,
    intangibleExplorationAssets := some 0, tangibleExplorationAssets := some 0,
    fixedAssets := some 0, profitableInvestmentsInTangibleAssets := some 0,
    financialInvestments := some 1, deferredTaxAssets := some 0,
    otherNonCurrentAssets := some 0, otherCurrentAssets := some 0,
    authorizedCapital := some 0, retainedEarnings := some 0,
    revaluationReserve := some 0, additionalCapital := some 0,
    borrowedFundsLongTerm := some 0, deferredTaxLiabilities := some 0,
    estimatedLiabilities := some 0, otherLongTermLiabilities := some 0,
    accountsPayable := some 0, deferredIncome := some 0,
    estimatedLiabilitiesShortTerm := some 0, otherCurrentLiabilities := some 0 }

/-- The optional income-statement fields assigned by the text
extraction, and all balance-sheet detail line items, are defined
numbers. -/
def extractionOptionalFieldsDefined (d : FinancialData) : Prop :=
  d.revenue.isSome = true ∧ d.netIncome.isSome = true ∧
  d.operatingIncome.isSome = true ∧ d.grossProfit.isSome = true ∧
  d.intangibleAssets.isSome = true ∧ d.rdResults.isSome = true ∧
  d.intangibleExplorationAssets.isSome = true ∧
  d.tangibleExplorationAssets.isSome = true ∧ d.fixedAssets.isSome = true ∧
  d.profitableInvestmentsInTangibleAssets.isSome = true ∧
  d.financialInvestments.isSome = true ∧ d.deferredTaxAssets.isSome = true ∧
  d.otherNonCurrentAssets.isSome = true ∧ d.otherCurrentAssets.isSome = true ∧
  d.authorizedCapital.isSome = true ∧ d.retainedEarnings.isSome = true ∧
  d.revaluationReserve.isSome = true ∧ d.additionalCapital.isSome = true ∧
  d.borrowedFundsLongTerm.isSome = true ∧ d.deferredTaxLiabilities.isSome = true ∧
  d.estimatedLiabilities.isSome = true ∧ d.otherLongTermLiabilities.isSome = true ∧
  d.accountsPayable.isSome = true ∧ d.deferredIncome.isSome = true ∧
  d.estimatedLiabilitiesShortTerm.isSome = true ∧
  d.otherCurrentLiabilities.isSome = true

/-! ## Theorems -/

/-- A bind in the Except monad yields ok exactly when both stages do. -/
theorem except_bind_eq_ok {α β : Type} {e : Except String α}
    {f : α → Except String β} {b : β} :
    (e >>= f) = .ok b ↔ ∃ a, e = .ok a ∧ f a = .ok b := by
  cases e <;> simp [Bind.bind, Except.bind]

/-- A record accepted by the schema check passes through unchanged. -/
theorem validateFinancialData_ok {r d : FinancialData}
    (h : validateFinancialData r = .ok d) : d = r := by
  unfold validateFinancialData at h
  split at h
  · exact (Except.ok.inj h).symm
  · simp at h

/-- Claim C1: for every input record (and whatever parsed
totalLiabilities value it carried), validateAndNormalizeFinancialData
returns a record — the out-of-tolerance accounting check only logs —
whose totalLiabilities equals longTermDebt plus currentLiabilities
exactly, the parsed totalLiabilities being discarded. -/
theorem validator_recomputes_totalLiabilities (d : FinancialData) (x : ℚ) :
    (validateAndNormalizeFinancialData d).totalLiabilities =
      d.longTermDebt + d.currentLiabilities ∧
    validateAndNormalizeFinancialData { d with totalLiabilities := x } =
      validateAndNormalizeFinancialData d := by
  constructor
  · simp [validateAndNormalizeFinancialData]
  · rfl

/-- Claim C2, counterexample: a record whose netIncome and revenue are
both defined (revenue being zero) for which the return-on-sales ratio
is absent from both calculateFinancialRatios and evaluateRatios,
refuting presence-iff-both-operands-defined. -/
theorem profitability_presence_counterexample :
    zeroRevenueFixture.netIncome.isSome = true ∧
    zeroRevenueFixture.revenue.isSome = true ∧
    (calculateFinancialRatios zeroRevenueFixture).ros.isSome = false ∧
    (evaluateRatios (calculateFinancialRatios zeroRevenueFixture)).ros.isSome = false := by
  decide

/-- Claim C2, amended: a profitability ratio is present in
calculateFinancialRatios exactly when its optional operands are defined
and its denominator is strictly positive (totalAssets for roa, equity
for roe, revenue for the four sales margins), and each is present in
evaluateRatios exactly when it is present in the ratio set. -/
theorem profitability_presence (d : FinancialData) :
    ((calculateFinancialRatios d).roa.isSome = true ↔
      d.netIncome.isSome = true ∧ 0 < d.totalAssets) ∧
    ((calculateFinancialRatios d).roe.isSome = true ↔
      d.netIncome.isSome = true ∧ 0 < d.equity) ∧
    ((calculateFinancialRatios d).ros.isSome = true ↔
      d.netIncome.isSome = true ∧ ∃ rev, d.revenue = some rev ∧ 0 < rev) ∧
    ((calculateFinancialRatios d).grossProfitMargin.isSome = true ↔
      d.grossProfit.isSome = true ∧ ∃ rev, d.revenue = some rev ∧ 0 < rev) ∧
    ((calculateFinancialRatios d).operatingProfitMargin.isSome = true ↔
      d.operatingIncome.isSome = true ∧ ∃ rev, d.revenue = some rev ∧ 0 < rev) ∧
    ((calculateFinancialRatios d).netProfitMargin.isSome = true ↔
      d.netIncome.isSome = true ∧ ∃ rev, d.revenue = some rev ∧ 0 < rev) ∧
    ((evaluateRatios (calculateFinancialRatios d)).roa.isSome =
      (calculateFinancialRatios d).roa.isSome) ∧
    ((evaluateRatios (calculateFinancialRatios d)).roe.isSome =
      (calculateFinancialRatios d).roe.isSome) ∧
    ((evaluateRatios (calculateFinancialRatios d)).ros.isSome =
      (calculateFinancialRatios d).ros.isSome) ∧
    ((evaluateRatios (calculateFinancialRatios d)).grossProfitMargin.isSome =
      (calculateFinancialRatios d).grossProfitMargin.isSome) ∧
    ((evaluateRatios (calculateFinancialRatios d)).operatingProfitMargin.isSome =
      (calculateFinancialRatios d).operatingProfitMargin.isSome) ∧
    ((evaluateRatios (calculateFinancialRatios d)).netProfitMargin.isSome =
      (calculateFinancialRatios d).netProfitMargin.isSome) := by
  refine ⟨?_, ?_, ?_, ?_, ?_, ?_, ?_, ?_, ?_, ?_, ?_, ?_⟩
  · cases hn : d.netIncome with
    | none => simp [calculateFinancialRatios, hn]
    | some ni =>
      by_cases ht : 0 < d.totalAssets <;> simp [calculateFinancialRatios, hn, ht]
  · cases hn : d.netIncome with
    | none => simp [calculateFinancialRatios, hn]
    | some ni =>
      by_cases ht : 0 < d.equity <;> simp [calculateFinancialRatios, hn, ht]
  · cases hn : d.netIncome with
    | none => simp [calculateFinancialRatios, hn]
    | some ni =>
      cases hr : d.revenue with
      | none => simp [calculateFinancialRatios, hn, hr]
      | some rev =>
        by_cases hv : 0 < rev <;> simp [calculateFinancialRatios, hn, hr, hv]
  · cases hn : d.grossProfit with
    | none => simp [calculateFinancialRatios, hn]
    | some gp =>
      cases hr : d.revenue with
      | none => simp [calculateFinancialRatios, hn, hr]
      | some rev =>
        by_cases hv : 0 < rev <;> simp [calculateFinancialRatios, hn, hr, hv]
  · cases hn : d.operatingIncome with
    | none => simp [calculateFinancialRatios, hn]
    | some oi =>
      cases hr : d.revenue with
      | none => simp [calculateFinancialRatios, hn, hr]
      | some rev =>
        by_cases hv : 0 < rev <;> simp [calculateFinancialRatios, hn, hr, hv]
  · cases hn : d.netIncome with
    | none => simp [calculateFinancialRatios, hn]
    | some ni =>
      cases hr : d.revenue with
      | none => simp [calculateFinancialRatios, hn, hr]
      | some rev =>
        by_cases hv : 0 < rev <;> simp [calculateFinancialRatios, hn, hr, hv]
  all_goals simp [evaluateRatios]

/-- Claim C3: calculateFinancialRatios guards each division — when
currentLiabilities is zero the three liquidity ratios are zero, when
totalAssets is zero the equity and debt ratios are zero, and when
equity is zero the debt-to-equity and financial-leverage ratios are
zero — so no denominator is ever divided when it is zero. -/
theorem ratio_zero_denominator_guards (d : FinancialData) :
    (d.currentLiabilities = 0 →
      (calculateFinancialRatios d).currentRatio = 0 ∧
      (calculateFinancialRatios d).quickRatio = 0 ∧
      (calculateFinancialRatios d).cashRatio = 0) ∧
    (d.totalAssets = 0 →
      (calculateFinancialRatios d).equityRatio = 0 ∧
      (calculateFinancialRatios d).debtRatio = 0) ∧
    (d.equity = 0 →
      (calculateFinancialRatios d).debtToEquityRatio = 0 ∧
      (calculateFinancialRatios d).financialLeverageRatio = 0) := by
  refine ⟨fun h => ?_, fun h => ?_, fun h => ?_⟩ <;>
    simp [calculateFinancialRatios, h]

/-- Witness for claim C3 at a concrete record with all three
denominators zero. -/
theorem ratio_zero_denominator_guards_witness :
    (calculateFinancialRatios guardFixture).currentRatio = 0 ∧
    (calculateFinancialRatios guardFixture).quickRatio = 0 ∧
    (calculateFinancialRatios guardFixture).cashRatio = 0 ∧
    (calculateFinancialRatios guardFixture).equityRatio = 0 ∧
    (calculateFinancialRatios guardFixture).debtRatio = 0 ∧
    (calculateFinancialRatios guardFixture).debtToEquityRatio = 0 ∧
    (calculateFinancialRatios guardFixture).financialLeverageRatio = 0 := by
  have h := ratio_zero_denominator_guards guardFixture
  exact ⟨(h.1 rfl).1, (h.1 rfl).2.1, (h.1 rfl).2.2, (h.2.1 rfl).1,
    (h.2.1 rfl).2, (h.2.2 rfl).1, (h.2.2 rfl).2⟩

/-- Claim C4: the seven reference cases of the numeric token parser. -/
theorem parseNumericValue_reference_cases :
    parseNumericValue "(123)" = some (-123) ∧
    parseNumericValue "1 234" = some 1234 ∧
    parseNumericValue "-0" = some 0 ∧
    parseNumericValue "abc" = none ∧
    parseNumericValue "(1 234)" = some (-1234) ∧
    parseNumericValue "-500" = some (-500) ∧
    parseNumericValue "0" = some 0 := by
  decide

/-- Claim C8: a record with current assets 150000 and current
liabilities 60000 yields a current ratio of exactly five halves,
assessed excellent; and the non-reverse classification is inclusive at
each threshold, so a value exactly at a tier's threshold earns that
tier. -/
theorem current_ratio_boundary_excellent (d : FinancialData)
    (h1 : d.currentAssets = 150000) (h2 : d.currentLiabilities = 60000) :
    (calculateFinancialRatios d).currentRatio = 5 / 2 ∧
    (evaluateRatios (calculateFinancialRatios d)).currentRatio.status =
      RatioStatus.excellent ∧
    (∀ t : RatioThresholds,
      getRatioStatus t.excellent t false = RatioStatus.excellent) ∧
    (∀ t : RatioThresholds, t.good < t.excellent →
      getRatioStatus t.good t false = RatioStatus.good) ∧
    (∀ t : RatioThresholds, t.warning < t.good → t.warning < t.excellent →
      getRatioStatus t.warning t false = RatioStatus.warning) := by
  have hcr : (calculateFinancialRatios d).currentRatio = 5 / 2 := by
    simp [calculateFinancialRatios, h1, h2]
    norm_num
  refine ⟨hcr, ?_, fun t => ?_, fun t h => ?_, fun t h h' => ?_⟩
  · simp [evaluateRatios, hcr, getRatioStatus]
  · simp [getRatioStatus]
  · simp [getRatioStatus, not_le.mpr h]
  · simp [getRatioStatus, not_le.mpr h, not_le.mpr h']

/-- Witness for claim C8 at the concrete scenario record. -/
theorem current_ratio_boundary_excellent_witness :
    (calculateFinancialRatios liquidityFixture).currentRatio = 5 / 2 ∧
    (evaluateRatios (calculateFinancialRatios liquidityFixture)).currentRatio.status =
      RatioStatus.excellent := by
  have h := current_ratio_boundary_excellent liquidityFixture rfl rfl
  exact ⟨h.1, h.2.1⟩

/-- Claim C5: the three-line document is tokenized into exactly its
three lines, the multi-line-triplet strategy records 45000 under the
normalized label of the first line, and the cash-and-equivalents field
resolves to 45000 from the full raw map. -/
theorem multiline_triplet_cash_extraction :
    toNonEmptyLines "Денежные средства\n1250\n45000" =
      ["Денежные средства", "1250", "45000"] ∧
    (strategy1 ["Денежные средства", "1250", "45000"]).1 =
      [("денежные средства", 45000)] ∧
    findValue (buildDataMap ["Денежные средства", "1250", "45000"]).1
      (buildDataMap ["Денежные средства", "1250", "45000"]).2
      cashAndEquivalentsKeys false = .ok 45000 := by
  decide

/-- Claim C6: the single-line strategy runs only when the triplet
strategy found no field; on the single scenario line the triplet
strategy finds nothing, the first single-line pattern takes the first
numeric group after the four-digit code as the value, and the inventory
field resolves to 35000. -/
theorem single_line_strategy_inventory :
    (∀ lines, (strategy1 lines).2 ≠ [] →
      strategy2IfNeeded lines (strategy1 lines) = strategy1 lines) ∧
    (strategy1 ["Запасы 1210 35000"]).2 = [] ∧
    tryPatterns "Запасы 1210 35000" = some ("Запасы", "35000") ∧
    (buildDataMap ["Запасы 1210 35000"]).1 = [("запасы", 35000)] ∧
    findValue (buildDataMap ["Запасы 1210 35000"]).1
      (buildDataMap ["Запасы 1210 35000"]).2 inventoryKeys false =
      .ok 35000 := by
  refine ⟨fun lines h => ?_, by decide, by decide, by decide, by decide⟩
  have hne : ¬ (strategy1 lines).2.length = 0 := by
    simpa [List.length_eq_zero] using h
  simp [strategy2IfNeeded, hne]

/-- Witness for claim C6's gating clause: on a document where the
triplet strategy found a field, the single-line pass leaves the result
untouched. -/
theorem single_line_strategy_inventory_witness :
    strategy2IfNeeded ["А", "1111", "5"] (strategy1 ["А", "1111", "5"]) =
      strategy1 ["А", "1111", "5"] :=
  single_line_strategy_inventory.1 ["А", "1111", "5"] (by decide)

/-- Claim C7: when no raw key resolves the totalAssets synonyms by
exact or partial matching, findValue raises the error whose message
names the first synonym (which is the word for balance), suggests
exactly the first three synonyms, and shows a sample of at most fifteen
found labels; an optional field found nowhere resolves to 0. -/
theorem required_field_missing_error (m : DataMap) (fk : List String)
    (hx : exactFind m totalAssetsKeys = none)
    (hp : partialFind m totalAssetsKeys = none) :
    findValue m fk totalAssetsKeys false =
      .error (requiredFieldError totalAssetsKeys fk) ∧
    requiredFieldError totalAssetsKeys fk =
      "Не найдено обязательное поле: \"" ++ "баланс" ++ "\". \n" ++
      "Попробуйте использовать одно из этих названий: " ++
      "баланс, активы баланс, всего активов" ++ ".\n" ++
      "Найденные поля в файле: " ++ String.intercalate ", " (fk.take 15) ++
      (if 15 < fk.length then "..." else "") ∧
    (fk.take 15).length ≤ 15 ∧
    (∀ ks, exactFind m ks = none → partialFind m ks = none →
      findValue m fk ks true = .ok 0) := by
  refine ⟨?_, rfl, ?_, fun ks h1 h2 => ?_⟩
  · simp [findValue, hx, hp]
  · exact List.length_take_le 15 fk
  · simp [findValue, h1, h2]

/-- Witness for claim C7 at the empty raw map. -/
theorem required_field_missing_error_witness :
    findValue [] [] totalAssetsKeys false =
      .error (requiredFieldError totalAssetsKeys []) ∧
    findValue [] [] totalAssetsKeys true = .ok 0 := by
  have h := required_field_missing_error [] [] (by decide) (by decide)
  exact ⟨h.1, h.2.2.2 totalAssetsKeys (by decide) (by decide)⟩

/-- Claim C10: every record the text-extraction resolver returns has
all optional income-statement fields it assigns (revenue, net income,
operating income, gross profit) and every balance-sheet detail line
item set to a defined number — zero when no raw key matched — never
left absent. -/
theorem extraction_defines_optional_fields (m : DataMap) (fk : List String)
    (okv cn : Option String) (d : FinancialData)
    (h : resolveFinancialData m fk okv cn = .ok d) :
    extractionOptionalFieldsDefined d := by
  simp only [resolveFinancialData, except_bind_eq_ok] at h
  repeat obtain ⟨_, -, h⟩ := h
  obtain rfl := validateFinancialData_ok h
  simp [extractionOptionalFieldsDefined]

/-- Witness for claim C10 at a concrete resolvable raw map. -/
theorem extraction_defines_optional_fields_witness :
    extractionOptionalFieldsDefined resolvedRecordFixture :=
  extraction_defines_optional_fields resolvableMapFixture [] none none
    resolvedRecordFixture (by decide)

/-! ## Idempotence of the key normalizer -/

/-- Packing a scalar value below the surrogate range and unpacking it
is the identity. -/
theorem char_toNat_ofNat {n : Nat} (h : n < 55296) : (Char.ofNat n).toNat = n := by
  have hv : n.isValidChar := Or.inl h
  rw [Char.ofNat, dif_pos hv]
  rfl

/-- Characters outside the two uppercase ranges and distinct from the
uppercase Io are fixed by the lowercase map. -/
theorem jsToLower_eq_of_not_upper {c : Char}
    (h1 : ¬(65 ≤ c.toNat ∧ c.toNat ≤ 90))
    (h2 : ¬(1040 ≤ c.toNat ∧ c.toNat ≤ 1071))
    (h3 : ¬ c.toNat = 1025) : jsToLower c = c := by
  unfold jsToLower
  rw [if_neg h1, if_neg h2, if_neg h3]

/-- The lowercase map is idempotent: each lowered character lies
outside every uppercase range. -/
theorem jsToLower_idem (c : Char) : jsToLower (jsToLower c) = jsToLower c := by
  by_cases h1 : 65 ≤ c.toNat ∧ c.toNat ≤ 90
  · have hL : jsToLower c = Char.ofNat (c.toNat + 32) := by
      unfold jsToLower
      rw [if_pos h1]
    have ht : (jsToLower c).toNat = c.toNat + 32 := by
      rw [hL]
      exact char_toNat_ofNat (by omega)
    exact jsToLower_eq_of_not_upper (by omega) (by omega) (by omega)
  · by_cases h2 : 1040 ≤ c.toNat ∧ c.toNat ≤ 1071
    · have hL : jsToLower c = Char.ofNat (c.toNat + 32) := by
        unfold jsToLower
        rw [if_neg h1, if_pos h2]
      have ht : (jsToLower c).toNat = c.toNat + 32 := by
        rw [hL]
        exact char_toNat_ofNat (by omega)
      exact jsToLower_eq_of_not_upper (by omega) (by omega) (by omega)
    · by_cases h3 : c.toNat = 1025
      · have hL : jsToLower c = Char.ofNat 1105 := by
          unfold jsToLower
          rw [if_neg h1, if_neg h2, if_pos h3]
        have ht : (jsToLower c).toNat = 1105 := by
          rw [hL]
          exact char_toNat_ofNat (by omega)
        exact jsToLower_eq_of_not_upper (by omega) (by omega) (by omega)
      · rw [jsToLower_eq_of_not_upper h1 h2 h3]
        rw [jsToLower_eq_of_not_upper h1 h2 h3]

/-- Every character surviving the lowercase-filter-despace prefix of the
pipeline is lowercase-fixed, kept, and is a plain space if whitespace. -/
theorem mem_pipeline {c : Char} {l : List Char}
    (hc : c ∈ ((l.map jsToLower).filter isKeep).map wsToSpace) :
    jsToLower c = c ∧ isKeep c = true ∧ (isJsWs c = true → c = ' ') := by
  obtain ⟨b, hb, rfl⟩ := List.mem_map.mp hc
  have hbk : isKeep b = true := (List.mem_filter.mp hb).2
  obtain ⟨a, -, rfl⟩ := List.mem_map.mp (List.mem_filter.mp hb).1
  by_cases hws : isJsWs (jsToLower a) = true
  · have hb : wsToSpace (jsToLower a) = ' ' := by
      rw [wsToSpace, if_pos hws]
    rw [hb]
    exact ⟨by decide, by decide, fun _ => rfl⟩
  · have hb : wsToSpace (jsToLower a) = jsToLower a := by
      rw [wsToSpace, if_neg hws]
    rw [hb]
    exact ⟨jsToLower_idem a, hbk, fun h => absurd h hws⟩

/-- Collapsing spaces only removes characters. -/
theorem squeezeSp_subset {c : Char} : ∀ {l : List Char}, c ∈ squeezeSp l → c ∈ l := by
  intro l
  induction l with
  | nil => simp [squeezeSp]
  | cons a t ih =>
    cases t with
    | nil => simp [squeezeSp]
    | cons b r =>
      intro h
      by_cases hab : a = ' ' ∧ b = ' '
      · simp only [squeezeSp, if_pos hab] at h
        exact List.mem_cons_of_mem _ (ih h)
      · simp only [squeezeSp, if_neg hab] at h
        rcases List.mem_cons.mp h with rfl | h'
        · exact List.mem_cons_self _ _
        · exact List.mem_cons_of_mem _ (ih h')

/-- Collapsing spaces keeps the head. -/
theorem squeezeSp_head? : ∀ (l : List Char), (squeezeSp l).head? = l.head? := by
  intro l
  induction l with
  | nil => rfl
  | cons a t ih =>
    cases t with
    | nil => rfl
    | cons b r =>
      by_cases hab : a = ' ' ∧ b = ' '
      · simp only [squeezeSp, if_pos hab]
        rw [ih]
        simp [hab.1, hab.2]
      · simp [squeezeSp, hab]

/-- After collapsing, no two adjacent characters are both spaces. -/
theorem squeezeSp_chain : ∀ (l : List Char),
    List.Chain' (fun a b => ¬(a = ' ' ∧ b = ' ')) (squeezeSp l) := by
  intro l
  induction l with
  | nil => simp [squeezeSp]
  | cons a t ih =>
    cases t with
    | nil => simp [squeezeSp]
    | cons b r =>
      by_cases hab : a = ' ' ∧ b = ' '
      · simpa [squeezeSp, if_pos hab] using ih
      · simp only [squeezeSp, if_neg hab]
        rw [List.chain'_cons']
        refine ⟨?_, ih⟩
        intro y hy
        rw [squeezeSp_head? (b :: r)] at hy
        simp only [List.head?_cons, Option.mem_def, Option.some.injEq] at hy
        subst hy
        exact hab

/-- A list with no adjacent spaces is unchanged by collapsing. -/
theorem squeezeSp_eq_self : ∀ {l : List Char},
    List.Chain' (fun a b => ¬(a = ' ' ∧ b = ' ')) l → squeezeSp l = l := by
  intro l
  induction l with
  | nil => intro _; rfl
  | cons a t ih =>
    cases t with
    | nil => intro _; rfl
    | cons b r =>
      intro h
      rw [List.chain'_cons'] at h
      have hab : ¬(a = ' ' ∧ b = ' ') := h.1 b (by simp)
      simp only [squeezeSp, if_neg hab]
      rw [ih h.2]

/-- The head survivor of dropWhile refutes the predicate. -/
theorem dropWhile_head?_not {p : Char → Bool} : ∀ {l : List Char} {c : Char},
    (l.dropWhile p).head? = some c → p c = false := by
  intro l
  induction l with
  | nil =>
    intro c h
    simp [List.dropWhile] at h
  | cons a t ih =>
    intro c h
    cases hpa : p a with
    | true =>
      simp only [List.dropWhile, hpa] at h
      exact ih h
    | false =>
      simp only [List.dropWhile, hpa] at h
      simp only [List.head?_cons, Option.some.injEq] at h
      subst h
      exact hpa

/-- When dropWhile leaves something, the last element is unchanged. -/
theorem dropWhile_getLast? {p : Char → Bool} : ∀ {l : List Char},
    l.dropWhile p ≠ [] → (l.dropWhile p).getLast? = l.getLast? := by
  intro l
  induction l with
  | nil => intro h; simp [List.dropWhile] at h
  | cons a t ih =>
    intro h
    cases hpa : p a with
    | true =>
      simp only [List.dropWhile, hpa] at h ⊢
      rw [ih h]
      have ht : t ≠ [] := by
        intro he
        subst he
        simp [List.dropWhile] at h
      cases t with
      | nil => exact absurd rfl ht
      | cons b r => exact (List.getLast?_cons_cons ..).symm
    | false => simp only [List.dropWhile, hpa]

/-- Trimming only removes characters. -/
theorem trimWs_subset {l : List Char} {c : Char} (h : c ∈ trimWs l) : c ∈ l := by
  unfold trimWs at h
  rw [List.mem_reverse] at h
  have h2 := (List.dropWhile_sublist _).subset h
  rw [List.mem_reverse] at h2
  exact (List.dropWhile_sublist _).subset h2

/-- The first character of a trimmed list is not whitespace. -/
theorem trimWs_head?_not {l : List Char} {c : Char}
    (h : (trimWs l).head? = some c) : isJsWs c = false := by
  unfold trimWs at h
  rw [List.head?_reverse] at h
  by_cases hC : (l.dropWhile isJsWs).reverse.dropWhile isJsWs = []
  · rw [hC] at h
    simp at h
  · rw [dropWhile_getLast? hC, List.getLast?_reverse] at h
    exact dropWhile_head?_not h

/-- The last character of a trimmed list is not whitespace. -/
theorem trimWs_getLast?_not {l : List Char} {c : Char}
    (h : (trimWs l).getLast? = some c) : isJsWs c = false := by
  unfold trimWs at h
  rw [List.getLast?_reverse] at h
  exact dropWhile_head?_not h

/-- Trimming preserves the absence of adjacent spaces. -/
theorem trimWs_chain {l : List Char}
    (h : List.Chain' (fun a b => ¬(a = ' ' ∧ b = ' ')) l) :
    List.Chain' (fun a b => ¬(a = ' ' ∧ b = ' ')) (trimWs l) := by
  have hrev : ∀ (m : List Char),
      List.Chain' (fun a b => ¬(a = ' ' ∧ b = ' ')) m →
      List.Chain' (fun a b => ¬(a = ' ' ∧ b = ' ')) m.reverse := by
    intro m hm
    rw [List.chain'_reverse]
    exact hm.imp (fun a b hab hc => hab ⟨hc.2, hc.1⟩)
  unfold trimWs
  exact hrev _ (List.Chain'.suffix
    (hrev _ (List.Chain'.suffix h (List.dropWhile_suffix _)))
    (List.dropWhile_suffix _))

/-- dropWhile is the identity when the head refutes the predicate. -/
theorem dropWhile_eq_self_of_head {p : Char → Bool} {l : List Char}
    (h : ∀ c, l.head? = some c → p c = false) : l.dropWhile p = l := by
  cases l with
  | nil => rfl
  | cons a t => simp [List.dropWhile, h a rfl]

/-- Trimming is the identity when neither end is whitespace. -/
theorem trimWs_eq_self {l : List Char}
    (h1 : ∀ c, l.head? = some c → isJsWs c = false)
    (h2 : ∀ c, l.getLast? = some c → isJsWs c = false) : trimWs l = l := by
  unfold trimWs
  rw [dropWhile_eq_self_of_head h1]
  rw [dropWhile_eq_self_of_head (fun c hc => ?_), List.reverse_reverse]
  rw [List.head?_reverse] at hc
  exact h2 c hc

/-- Mapping a function that fixes every member is the identity. -/
theorem map_id_of_mem {f : Char → Char} : ∀ {l : List Char},
    (∀ c ∈ l, f c = c) → l.map f = l := by
  intro l
  induction l with
  | nil => intro _; rfl
  | cons a t ih =>
    intro h
    simp only [List.map_cons]
    rw [h a (by simp), ih (fun c hc => h c (by simp [hc]))]

/-- Every character of a normalized key is lowercase-fixed, kept, and a
plain space if whitespace. -/
theorem normChars_mem {l : List Char} {c : Char} (hc : c ∈ normChars l) :
    jsToLower c = c ∧ isKeep c = true ∧ (isJsWs c = true → c = ' ') := by
  unfold normChars at hc
  exact mem_pipeline (squeezeSp_subset (trimWs_subset hc))

/-- The normalization pipeline is idempotent at the character level. -/
theorem normChars_idem (l : List Char) : normChars (normChars l) = normChars l := by
  have hm : ∀ c ∈ normChars l,
      jsToLower c = c ∧ isKeep c = true ∧ (isJsWs c = true → c = ' ') :=
    fun c hc => normChars_mem hc
  have h1 : (normChars l).map jsToLower = normChars l :=
    map_id_of_mem (fun c hc => (hm c hc).1)
  have h2 : (normChars l).filter isKeep = normChars l :=
    List.filter_eq_self.mpr (fun c hc => (hm c hc).2.1)
  have h3 : (normChars l).map wsToSpace = normChars l := by
    apply map_id_of_mem
    intro c hc
    by_cases hws : isJsWs c = true
    · rw [wsToSpace, if_pos hws, (hm c hc).2.2 hws]
    · rw [wsToSpace, if_neg hws]
  have h4 : squeezeSp (normChars l) = normChars l := by
    apply squeezeSp_eq_self
    unfold normChars
    exact trimWs_chain (squeezeSp_chain _)
  have h5 : trimWs (normChars l) = normChars l := by
    apply trimWs_eq_self
    · intro c hc
      unfold normChars at hc
      exact trimWs_head?_not hc
    · intro c hc
      unfold normChars at hc
      exact trimWs_getLast?_not hc
  show trimWs (squeezeSp (((normChars l |>.map jsToLower).filter isKeep).map wsToSpace))
      = normChars l
  rw [h1, h2, h3, h4, h5]

/-- Claim C9: the key normalizer is idempotent — normalizing an already
normalized label changes nothing, for every input string. -/
theorem normalizeKey_idempotent (s : String) :
    normalizeKey (normalizeKey s) = normalizeKey s := by
  show String.mk (normChars (String.mk (normChars s.data)).data) =
    String.mk (normChars s.data)
  rw [show (String.mk (normChars s.data)).data = normChars s.data from rfl,
    normChars_idem]

end FinDoc
